import Mathlib

/-!
Shallow embedding of `pyfreesurfer/info.py`, a static metadata module, and
theorems settling the claims about its constants.
-/

namespace PyFreesurfer.Info

/-- Model of the Python values that occur at top level in the module:
integers, booleans, strings, lists and dicts. -/
inductive PyVal : Type where
  | pyInt  : Int → PyVal
  | pyBool : Bool → PyVal
  | pyStr  : String → PyVal
  | pyList : List PyVal → PyVal
  | pyDict : List (PyVal × PyVal) → PyVal

/-- Python decimal rendering of an integer, as produced by `str(i)`. -/
def pyStrOfInt (i : Int) : String :=
  if i < 0 then "-" ++ String.mk (Nat.toDigits 10 i.natAbs)
  else String.mk (Nat.toDigits 10 i.natAbs)

/-- One positional replacement field of `str.format`: renders argument `i`,
raising `IndexError` when the index is out of range of the argument tuple. -/
def formatField (args : List Int) (i : Nat) : Except String String :=
  match args.get? i with
  | some v => Except.ok (pyStrOfInt v)
  | none => Except.error "IndexError: Replacement index out of range"

/-- The call site `"{0}.{1}.{2}".format(a, b, c)` from info.py line 16:
fields 0, 1 and 2 joined by dots. -/
def formatVersion (args : List Int) : Except String String := do
  let a ← formatField args 0
  let b ← formatField args 1
  let c ← formatField args 2
  return a ++ "." ++ b ++ "." ++ c

def version_major : Int := 1
def version_minor : Int := 1
def version_micro : Int := 0

/-- The argument tuple of the format call composing the version string. -/
def versionFormatArgs : List Int := [version_major, version_minor, version_micro]

def __version__ : String := (formatVersion versionFormatArgs).toOption.getD ""

def DEFAULT_FREESURFER_PATH : String := "/i2bm/local/freesurfer/SetUpFreeSurfer.sh"
def DEFAULT_FSL_PATH : String := "/etc/fsl/5.0/fsl.sh"
def DEFAULT_WORKBENCH_PATH : String := "/usr/bin"
def DEFAULT_TEMPLATE_SYM_PATH : String := "/i2bm/local/freesurfer/subjects/fsaverage_sym"

def FREESURFER_RELEASE : String := "5.3.0"

def CLASSIFIERS : List String :=
  ["Development Status :: 5 - Production/Stable",
   "Environment :: Console",
   "Environment :: X11 Applications :: Qt",
   "Operating System :: OS Independent",
   "Programming Language :: Python",
   "Topic :: Scientific/Engineering",
   "Topic :: Utilities"]

def description : String :=
  "\n[pyFreeSurfer]\nThis package provides common scripts:\n\n* pyfreesurfer_reconall: FreeSurfer cortical and subcortical segmentation.\n* pyfreesurfer_datacheck: check FreeSurfer \x27reconall\x27 produced data integrity.\n* pyfreesurfer_conversion:  convert FreeSurfer volume, mesh , annotations\n  to the native space. The produced meshes will also be aligned across\n  subjects.\n* pyfreesurfer_qualitycheck: check FreeSurfer \x27reconall\x27 produced data quality.\n* pyfreesurfer_stats: summarize the FreeSurfer \x27reconall\x27 individual\n  statistics.\n* pyfreesurfer_textures: build texture arrays aligned across subjects.\n"

def long_description : String :=
  "\n======================\npyFreeSurfer\n======================\n\nPython wrappers for FreeSurfer: wrap the FreeSurfer software and simplify\nscripting calls. Such calls can be performed through the use of a\ndedicated function of the package.\n"

def NAME : String := "pyFreeSurfer"
def ORGANISATION : String := "CEA"
def MAINTAINER : String := "Antoine Grigis"
def MAINTAINER_EMAIL : String := "antoine.grigis@cea.fr"
def DESCRIPTION : String := description
def LONG_DESCRIPTION : String := long_description
def URL : String := "https://github.com/neurospin/pyfreesurfer"
def DOWNLOAD_URL : String := "https://github.com/neurospin/pyfreesurfer"
def LICENSE : String := "CeCILL-B"
def AUTHOR : String := "pyFreeSurfer developers"
def AUTHOR_EMAIL : String := "antoine.grigis@cea.fr"
def PLATFORMS : String := "OS Independent"
def ISRELEASE : Bool := true
def VERSION : String := __version__
def PROVIDES : List String := ["pyfreesurfer"]
def REQUIRES : List String :=
  ["numpy>=1.6.1",
   "nibabel>=1.1.0",
   "matplotlib>=1.3.1"]
def EXTRA_REQUIRES : List (PyVal × PyVal) := []

/-- The interpreter environment a module evaluation could in principle
consult (environment variables); info.py never reads it. -/
abbrev Environ : Type := List (String × String)

/-- Evaluation of the whole module: runs every top-level definition in
source order and returns the final binding of each name.  The only fallible
step is the `str.format` call composing `__version__`; the second binding
of `CLASSIFIERS` (line 74, `CLASSIFIERS = CLASSIFIERS`) rebinds the same
value, so each name appears once with its final value. -/
def evalInfoModule (_env : Environ) : Except String (List (String × PyVal)) := do
  let ver ← formatVersion versionFormatArgs
  return [("version_major", PyVal.pyInt version_major),
    ("version_minor", PyVal.pyInt version_minor),
    ("version_micro", PyVal.pyInt version_micro),
    ("__version__", PyVal.pyStr ver),
    ("DEFAULT_FREESURFER_PATH", PyVal.pyStr DEFAULT_FREESURFER_PATH),
    ("DEFAULT_FSL_PATH", PyVal.pyStr DEFAULT_FSL_PATH),
    ("DEFAULT_WORKBENCH_PATH", PyVal.pyStr DEFAULT_WORKBENCH_PATH),
    ("DEFAULT_TEMPLATE_SYM_PATH", PyVal.pyStr DEFAULT_TEMPLATE_SYM_PATH),
    ("FREESURFER_RELEASE", PyVal.pyStr FREESURFER_RELEASE),
    ("CLASSIFIERS", PyVal.pyList (CLASSIFIERS.map PyVal.pyStr)),
    ("description", PyVal.pyStr description),
    ("long_description", PyVal.pyStr long_description),
    ("NAME", PyVal.pyStr NAME),
    ("ORGANISATION", PyVal.pyStr ORGANISATION),
    ("MAINTAINER", PyVal.pyStr MAINTAINER),
    ("MAINTAINER_EMAIL", PyVal.pyStr MAINTAINER_EMAIL),
    ("DESCRIPTION", PyVal.pyStr DESCRIPTION),
    ("LONG_DESCRIPTION", PyVal.pyStr LONG_DESCRIPTION),
    ("URL", PyVal.pyStr URL),
    ("DOWNLOAD_URL", PyVal.pyStr DOWNLOAD_URL),
    ("LICENSE", PyVal.pyStr LICENSE),
    ("AUTHOR", PyVal.pyStr AUTHOR),
    ("AUTHOR_EMAIL", PyVal.pyStr AUTHOR_EMAIL),
    ("PLATFORMS", PyVal.pyStr PLATFORMS),
    ("ISRELEASE", PyVal.pyBool ISRELEASE),
    ("VERSION", PyVal.pyStr ver),
    ("PROVIDES", PyVal.pyList (PROVIDES.map PyVal.pyStr)),
    ("REQUIRES", PyVal.pyList (REQUIRES.map PyVal.pyStr)),
    ("EXTRA_REQUIRES", PyVal.pyDict EXTRA_REQUIRES)]

/-- The bindings the module leaves behind after a successful evaluation. -/
def moduleBindings : List (String × PyVal) :=
  ((evalInfoModule []).toOption).getD []

/-- Look a top-level name up in the module's final bindings. -/
def lookupConst (n : String) : Option PyVal :=
  moduleBindings.lookup n

/-- Recogniser for the success case of `Except`. -/
def exceptOk {ε α : Type} : Except ε α → Bool
  | Except.ok _ => true
  | Except.error _ => false

/-- Python `s.split(".")` on the character list of a string. -/
def splitOnDot : List Char → List (List Char)
  | [] => [[]]
  | c :: rest =>
    let r := splitOnDot rest
    if c = '.' then [] :: r
    else
      match r with
      | [] => [[c]]
      | g :: gs => (c :: g) :: gs

/-- A non-empty run of decimal digits: a decimal integer literal. -/
def isDecIntChars (cs : List Char) : Bool :=
  !cs.isEmpty && cs.all Char.isDigit

/-- A version string of dot-separated integers (one or more components). -/
def isDotSepIntsChars (cs : List Char) : Bool :=
  (splitOnDot cs).all isDecIntChars

/-- Exactly three dot-separated decimal integer components: "X.Y.Z". -/
def isVersionXYZ (s : String) : Bool :=
  (splitOnDot s.data).length == 3 && (splitOnDot s.data).all isDecIntChars

/-- Parse a run of decimal digits as a Python integer. -/
def parseDecChars (cs : List Char) : Option Int :=
  if isDecIntChars cs then
    some (Int.ofNat (cs.foldl (fun acc c => 10 * acc + (c.toNat - 48)) 0))
  else none

/-- Does `p` begin the list `cs`? -/
def beginsWith : List Char → List Char → Bool
  | [], _ => true
  | _ :: _, [] => false
  | a :: as, b :: bs => a == b && beginsWith as bs

/-- Split `cs` once around the first occurrence of the separator `sep`. -/
def splitOnceOn (sep : List Char) : List Char → Option (List Char × List Char)
  | [] => none
  | c :: rest =>
    if beginsWith sep (c :: rest) then some ([], (c :: rest).drop sep.length)
    else
      match splitOnceOn sep rest with
      | some (a, b) => some (c :: a, b)
      | none => none

/-- The comparison operators of a pip version constraint. -/
def comparisonOps : List (List Char) :=
  [['=', '='], ['!', '='], ['<', '='], ['>', '='], ['<'], ['>']]

/-- Characters allowed in a library distribution name. -/
def isNameChar (c : Char) : Bool :=
  c.isAlphanum || c == '_' || c == '-' || c == '.'

/-- A third-party library version constraint: a non-empty library name, a
comparison operator, then a version of dot-separated integers. -/
def isReqConstraint (cs : List Char) : Bool :=
  comparisonOps.any fun op =>
    match splitOnceOn op cs with
    | some (n, v) => !n.isEmpty && n.all isNameChar && isDotSepIntsChars v
    | none => false

/-- A scalar value: a number (booleans are numbers in Python) or a string. -/
def isScalarVal : PyVal → Bool
  | PyVal.pyInt _ => true
  | PyVal.pyBool _ => true
  | PyVal.pyStr _ => true
  | _ => false

/-- A flat constant: a scalar, or a list whose elements are all scalars. -/
def isFlatVal : PyVal → Bool
  | PyVal.pyList xs => xs.all isScalarVal
  | v => isScalarVal v

/-- The binding of `n` is a string value with at least one character. -/
def nonEmptyStrConst (n : String) : Bool :=
  match lookupConst n with
  | some (PyVal.pyStr s) => !s.data.isEmpty
  | _ => false

/-- Claim C1: the composed version string `__version__` matches the pattern
of three dot-separated integers, i.e. it is of the form "X.Y.Z" where X, Y
and Z are decimal integer literals. -/
theorem version_string_is_three_dot_separated_integers :
    isVersionXYZ __version__ = true := by rfl

/-- Claim C2: every path constant defined by the module
(DEFAULT_FREESURFER_PATH, DEFAULT_FSL_PATH, DEFAULT_WORKBENCH_PATH,
DEFAULT_TEMPLATE_SYM_PATH) is bound to a non-empty string. -/
theorem path_constants_are_nonempty_strings :
    (nonEmptyStrConst "DEFAULT_FREESURFER_PATH" &&
     nonEmptyStrConst "DEFAULT_FSL_PATH" &&
     nonEmptyStrConst "DEFAULT_WORKBENCH_PATH" &&
     nonEmptyStrConst "DEFAULT_TEMPLATE_SYM_PATH") = true := by rfl

/-- Claim C3: the declared list of dependencies, REQUIRES, is non-empty. -/
theorem requires_list_is_nonempty :
    REQUIRES ≠ [] ∧
    lookupConst "REQUIRES" = some (PyVal.pyList (REQUIRES.map PyVal.pyStr)) :=
  ⟨by decide, rfl⟩

/-- Claim C4, counterexample: not every top-level constant is a flat scalar
or list of scalars — the binding of EXTRA_REQUIRES is a dict. -/
theorem not_every_constant_is_flat :
    (moduleBindings.all fun p => isFlatVal p.2) = false ∧
    lookupConst "EXTRA_REQUIRES" = some (PyVal.pyDict []) := ⟨rfl, rfl⟩

/-- Claim C4, amended: every top-level constant other than EXTRA_REQUIRES
is a flat scalar — a number (booleans included) or a string — or a list of
such scalars; EXTRA_REQUIRES itself is bound to an empty dict. -/
theorem constants_flat_except_extra_requires :
    (moduleBindings.all fun p => p.1 == "EXTRA_REQUIRES" || isFlatVal p.2) = true := by rfl

/-- Claim C5: every element of REQUIRES is a non-empty string made of a
library name, a comparison operator, and a version of dot-separated
integers. -/
theorem requires_elements_are_version_constraints :
    (REQUIRES.all fun s => isReqConstraint s.data) = true ∧
    (REQUIRES.all fun s => !s.data.isEmpty) = true := ⟨rfl, rfl⟩

/-- Claim C6: FREESURFER_RELEASE is a non-empty version string of
dot-separated integers. -/
theorem freesurfer_release_is_version_string :
    (isDotSepIntsChars FREESURFER_RELEASE.data &&
     !FREESURFER_RELEASE.data.isEmpty) = true := by rfl

/-- Claim C7: evaluating the module raises no error whatever the
environment — every top-level definition succeeds and the format call
composing `__version__` returns the version string rather than an
IndexError. -/
theorem module_evaluation_never_errors :
    ∀ env : Environ,
      exceptOk (evalInfoModule env) = true ∧
      formatVersion versionFormatArgs = Except.ok __version__ :=
  fun _ => ⟨rfl, rfl⟩

/-- Witness for C7: evaluation succeeds under a concrete environment. -/
theorem module_evaluation_never_errors_witness :
    exceptOk (evalInfoModule [("PATH", "/usr/bin")]) = true :=
  (module_evaluation_never_errors [("PATH", "/usr/bin")]).1

/-- Claim C8: module evaluation is deterministic — any two evaluations,
under any two environments, bind every constant to identical values. -/
theorem module_evaluation_deterministic :
    ∀ e₁ e₂ : Environ, evalInfoModule e₁ = evalInfoModule e₂ :=
  fun _ _ => rfl

/-- Witness for C8: two concrete distinct environments give the same
bindings. -/
theorem module_evaluation_deterministic_witness :
    evalInfoModule [("HOME", "/root")] = evalInfoModule [] :=
  module_evaluation_deterministic [("HOME", "/root")] []

/-- Claim C9: each alias constant equals its source definition — VERSION
equals `__version__`, DESCRIPTION equals `description`, LONG_DESCRIPTION
equals `long_description`, and the final CLASSIFIERS binding is the list
of seven classifier strings defined earlier. -/
theorem alias_constants_equal_their_sources :
    lookupConst "VERSION" = lookupConst "__version__" ∧
    lookupConst "DESCRIPTION" = lookupConst "description" ∧
    lookupConst "LONG_DESCRIPTION" = lookupConst "long_description" ∧
    lookupConst "CLASSIFIERS" = some (PyVal.pyList (CLASSIFIERS.map PyVal.pyStr)) ∧
    CLASSIFIERS.length = 7 :=
  ⟨rfl, rfl, rfl, rfl, rfl⟩

/-- Claim C10: splitting `__version__` on "." and parsing each part as an
integer recovers exactly (version_major, version_minor, version_micro),
which is (1, 1, 0). -/
theorem version_string_roundtrip :
    (splitOnDot __version__.data).map parseDecChars =
      [some version_major, some version_minor, some version_micro] ∧
    (version_major, version_minor, version_micro) = (1, 1, 0) :=
  ⟨rfl, rfl⟩

end PyFreesurfer.Info
